import Mathlib

/-!
Verification of the rusp pipeline (parser, type checker, evaluator).

Shallow embedding of the rusp sources (`src/ast.rs`, `src/parser/*`,
`src/types.rs`, `src/env.rs`, `src/eval.rs`, `src/main.rs`).

Modelling conventions:
* Rust `&str` slices are `List Char` (`Str`); Lean's persistent lists make
  nom-style slicing pure.
* `HashMap<String, _>` is an association list; `insert` conses and lookup
  takes the first (most recent) match, which gives the same `get`/`insert`
  observable behaviour as the hash map.
* `i32`/`i64` are `Int` with explicit two's-complement wrapping (`wrap32`,
  `wrap64`) at every arithmetic operation (release-mode Rust semantics);
  every claim below stays far inside the representable ranges.
* `f64` is modelled as `Rat` (decimal literals are represented exactly);
  no claim exercises float arithmetic or float formatting.
* The recursive interpreter and checker take an explicit fuel argument
  (Rust recursion is bounded only by the machine stack); concrete theorems
  instantiate fuel large enough for the computation at hand.
* The parser mirrors nom 7 combinator semantics: recoverable
  `Err::Error` vs fatal `Err::Failure`, `alt` backtracking on `Error` only
  and keeping the last error, `opt` swallowing `Error`, and the
  no-progress checks of `many0` / `separated_list0`.
-/

abbrev Str := List Char

def s2l (s : String) : Str := s.data

/-- nom `multispace0` character class: space, tab, newline, carriage return. -/
def isMS (c : Char) : Bool := c = ' ' || c = '\t' || c = '\n' || c = '\r'

/-- nom `multispace0`: drop leading whitespace, never fails. -/
def ms0 (s : Str) : Str := s.dropWhile isMS

/-- Character class of `parse_symbol` (src/parser/expr.rs line 106):
alphanumeric or one of the operator punctuation characters. -/
def isSymChar (c : Char) : Bool := c.isAlphanum || (s2l "+-*/<>=!&|_?.").contains c

/-- Character class of `parse_symbol_name` (src/parser/expr.rs line 271). -/
def isNameChar (c : Char) : Bool := c.isAlphanum || c = '_' || c = '-'

/-- src/parser/error.rs `ParseError`. -/
inductive PErr where
  | UnexpectedInput (s : Str)
  | UnexpectedEof
  | InvalidNumber (s : Str)
  | InvalidString (s : Str)
  | InvalidType (s : Str)
  | UnmatchedParen
  | NomError (s : Str)
deriving DecidableEq, Repr

/-- nom `Err`: recoverable `Error` vs fatal `Failure` (`Incomplete` is
unused by the complete-input combinators the parser uses). -/
inductive NomErr where
  | err (e : PErr)
  | fail (e : PErr)
deriving DecidableEq, Repr

abbrev PRes (α : Type) := Except NomErr (Str × α)

/-- `ParseError::from_error_kind` (src/parser/error.rs lines 52-54): the
input is discarded and the kind's `Debug` form is interpolated. -/
def nomKind (k : String) : NomErr := .err (.NomError (s2l ("Parse error: " ++ k)))

/-- nom `character::complete::char`. -/
def charP (c : Char) (s : Str) : PRes Char :=
  match s with
  | x :: rest => if x = c then .ok (rest, c) else .error (nomKind "Char")
  | [] => .error (nomKind "Char")

/-- nom `bytes::complete::tag`. -/
def tagP (t : String) (s : Str) : PRes Str :=
  if (s2l t).isPrefixOf s then .ok (s.drop (s2l t).length, s2l t)
  else .error (nomKind "Tag")

/-- nom `take_while1`-style: one-or-more characters satisfying `p`,
failing with the given error kind on an empty run. -/
def takeWhile1K (k : String) (p : Char → Bool) (s : Str) : PRes Str :=
  let run := s.takeWhile p
  if run.isEmpty then .error (nomKind k)
  else .ok (s.drop run.length, run)

/-- nom `character::complete::digit1`. -/
def digit1 (s : Str) : PRes Str := takeWhile1K "Digit1" Char.isDigit s

/-- nom `combinator::opt`: swallow recoverable errors, propagate failures. -/
def optP {α : Type} (p : Str → PRes α) (s : Str) : PRes (Option α) :=
  match p s with
  | .ok (rest, a) => .ok (rest, some a)
  | .error (.err _) => .ok (s, none)
  | .error (.fail e) => .error (.fail e)

/-- nom `branch::alt` of two parsers: backtrack on `Error` (keeping the
later branch's error, per the default `ParseError::or`), abort on
`Failure`. -/
def alt2 {α : Type} (p q : Str → PRes α) (s : Str) : PRes α :=
  match p s with
  | .error (.err _) => q s
  | r => r

/-- Loop of nom `multi::many0` with its no-progress check; the fuel is
instantiated with `input length + 1`, which the ≥1-character progress per
iteration makes sufficient. -/
def many0Go {α : Type} (p : Str → PRes α) : Nat → Str → List α → PRes (List α)
  | 0, i, acc => .ok (i, acc.reverse)
  | n + 1, i, acc =>
    match p i with
    | .error (.err _) => .ok (i, acc.reverse)
    | .error e => .error e
    | .ok (i1, o) =>
      if i1.length = i.length then .error (nomKind "Many0")
      else many0Go p n i1 (o :: acc)

/-- nom `multi::many0`. -/
def many0 {α : Type} (p : Str → PRes α) (s : Str) : PRes (List α) :=
  many0Go p (s.length + 1) s []

/-- Loop of nom `multi::separated_list0`: after the first element, parse a
separator (erroring with `SeparatedList` if it consumes nothing) and then
an element, stopping at the first recoverable error. -/
def sepList0Go {α : Type} (sep : Str → PRes Unit) (item : Str → PRes α) :
    Nat → Str → List α → PRes (List α)
  | 0, i, acc => .ok (i, acc.reverse)
  | n + 1, i, acc =>
    match sep i with
    | .error (.err _) => .ok (i, acc.reverse)
    | .error e => .error e
    | .ok (i1, _) =>
      if i1.length = i.length then .error (nomKind "SeparatedList")
      else
        match item i1 with
        | .error (.err _) => .ok (i, acc.reverse)
        | .error e => .error e
        | .ok (i2, o) => sepList0Go sep item n i2 (o :: acc)

/-- nom `multi::separated_list0`. -/
def sepList0 {α : Type} (sep : Str → PRes Unit) (item : Str → PRes α)
    (s : Str) : PRes (List α) :=
  match item s with
  | .error (.err _) => .ok (s, [])
  | .error e => .error e
  | .ok (i1, o) => sepList0Go sep item (i1.length + 1) i1 [o]

/-- src/ast.rs `Type` (named `Ty` because `Type` is reserved in Lean). -/
inductive Ty where
  | I32
  | I64
  | F64
  | Bool
  | String
  | Function (params : List Ty) (return_type : Ty)
  | Inferred
deriving Repr

/-- src/ast.rs `Expr`. -/
inductive Expr where
  | Integer32 (n : Int)
  | Integer64 (n : Int)
  | Float (q : Rat)
  | Bool (b : Bool)
  | String (s : Str)
  | Symbol (s : Str)
  | List (exprs : List Expr)
  | If (condition then_branch else_branch : Expr)
  | Let (name : Str) (type_ann : Option Ty) (value : Expr) (body : Option Expr)
  | Defn (name : Str) (params : List (Str × Ty)) (return_type : Ty) (body : Expr)
  | Lambda (params : List (Str × Ty)) (return_type : Option Ty) (body : Expr)
  | Call (func : Expr) (args : List Expr)
deriving Repr

/-! ## Parser (src/parser/types.rs and src/parser/expr.rs) -/

/-- src/parser/types.rs `parse_basic_type`. -/
def parse_basic_type (s : Str) : PRes Ty :=
  alt2 (fun t => match tagP "i32" t with
        | .ok (r, _) => .ok (r, Ty.I32) | .error e => .error e)
  (alt2 (fun t => match tagP "i64" t with
        | .ok (r, _) => .ok (r, Ty.I64) | .error e => .error e)
  (alt2 (fun t => match tagP "f64" t with
        | .ok (r, _) => .ok (r, Ty.F64) | .error e => .error e)
  (alt2 (fun t => match tagP "bool" t with
        | .ok (r, _) => .ok (r, Ty.Bool) | .error e => .error e)
  (alt2 (fun t => match tagP "String" t with
        | .ok (r, _) => .ok (r, Ty.String) | .error e => .error e)
        (fun t => match tagP "_" t with
        | .ok (r, _) => .ok (r, Ty.Inferred) | .error e => .error e))))) s

/-- Separator of the parameter-type list in `parse_function_type`:
`tuple((multispace0, char(','), multispace0))`.  On comma failure nothing
is consumed (nom backtracks the whole separator). -/
def commaSepP (s : Str) : PRes Unit :=
  match charP ',' (ms0 s) with
  | .ok (s2, _) => .ok (ms0 s2, ())
  | .error e => .error e

/-- src/parser/types.rs `parse_function_type`, parameterised by the
one-level-down type parser (recursion happens through `typeAnnF`). -/
def parse_function_type (pt : Str → PRes Ty) (s : Str) : PRes Ty :=
  match tagP "fn" s with
  | .error e => .error e
  | .ok (s1, _) =>
    let s2 := ms0 s1
    match charP '(' s2 with
    | .error e => .error e
    | .ok (s3, _) =>
      match sepList0 commaSepP pt s3 with
      | .error e => .error e
      | .ok (s4, params) =>
        match charP ')' s4 with
        | .error e => .error e
        | .ok (s5, _) =>
          let s6 := ms0 s5
          match tagP "->" s6 with
          | .error e => .error e
          | .ok (s7, _) =>
            match pt (ms0 s7) with
            | .error e => .error e
            | .ok (s8, rt) => .ok (s8, Ty.Function params rt)

/-- Fueled core of src/parser/types.rs `parse_type_annotation`; each
recursion level first consumes at least `fn(`, so `length + 2` fuel is
always enough. -/
def typeAnnF : Nat → Str → PRes Ty
  | 0, _ => .error (.fail (.NomError (s2l "Parse error: fuel")))
  | n + 1, s => alt2 (parse_function_type (typeAnnF n)) parse_basic_type s

/-- src/parser/types.rs `parse_type_annotation`. -/
def parse_type_ann (s : Str) : PRes Ty := typeAnnF (s.length + 2) s

/-- src/parser/expr.rs `parse_bool`. -/
def parse_bool (s : Str) : PRes Expr :=
  alt2 (fun t => match tagP "true" t with
        | .ok (r, _) => .ok (r, Expr.Bool true) | .error e => .error e)
       (fun t => match tagP "false" t with
        | .ok (r, _) => .ok (r, Expr.Bool false) | .error e => .error e) s

/-- Numeric value of a digit run (the semantics of Rust `str::parse` on a
string of ASCII digits). -/
def natOfDigits (ds : Str) : Nat := ds.foldl (fun a c => 10 * a + (c.toNat - 48)) 0

/-- src/parser/expr.rs `parse_integer`: try `i32`, fall back to `i64`,
else a fatal `InvalidNumber` failure. -/
def parse_integer (input : Str) : PRes Expr :=
  match optP (charP '-') input with
  | .error e => .error e
  | .ok (i1, sign) =>
    match digit1 i1 with
    | .error e => .error e
    | .ok (i2, digits) =>
      let numStr : Str := match sign with | some _ => '-' :: digits | none => digits
      let v : Int := match sign with
        | some _ => -(natOfDigits digits : Int)
        | none => (natOfDigits digits : Int)
      if -(2 ^ 31) ≤ v ∧ v ≤ 2 ^ 31 - 1 then .ok (i2, Expr.Integer32 v)
      else if -(2 ^ 63) ≤ v ∧ v ≤ 2 ^ 63 - 1 then .ok (i2, Expr.Integer64 v)
      else .error (.fail (.InvalidNumber (numStr ++ s2l " is out of i64 range")))

/-- src/parser/expr.rs `parse_float` (`recognize` of sign, digits, dot,
digits, then `str::parse::<f64>`; the value is modelled exactly in `Rat`,
which no claim distinguishes from IEEE rounding). -/
def parse_float (input : Str) : PRes Expr :=
  match optP (charP '-') input with
  | .error e => .error e
  | .ok (i1, sign) =>
    match digit1 i1 with
    | .error e => .error e
    | .ok (i2, ip) =>
      match charP '.' i2 with
      | .error e => .error e
      | .ok (i3, _) =>
        match digit1 i3 with
        | .error e => .error e
        | .ok (i4, fp) =>
          let sgn : Int := match sign with | some _ => -1 | none => 1
          let num : Int := sgn * ((natOfDigits ip) * 10 ^ fp.length + natOfDigits fp)
          .ok (i4, Expr.Float ((num : Rat) / ((10 ^ fp.length : Nat) : Rat)))

/-- src/parser/expr.rs `parse_number`. -/
def parse_number (input : Str) : PRes Expr :=
  alt2 parse_float parse_integer (ms0 input)

/-- The loop of nom `bytes::complete::escaped(none_of("\"\\"), '\\',
one_of("\"\\ntr"))`: consume normal characters and control+escapable
pairs, return the consumed prefix verbatim together with the remainder;
`none` is nom's recoverable error (swallowed by the surrounding `opt`).
`acc` holds the consumed prefix in reverse. -/
def escRun : Str → Str → Option (Str × Str)
  | acc, [] => some (acc.reverse, [])
  | acc, c :: rest =>
    if c = '\\' then
      match rest with
      | [] => none
      | d :: rest2 =>
        if d = '"' || d = '\\' || d = 'n' || d = 't' || d = 'r' then
          escRun (d :: '\\' :: acc) rest2
        else none
    else if c = '"' then
      if acc.isEmpty then none else some (acc.reverse, c :: rest)
    else escRun (c :: acc) rest

/-- src/parser/expr.rs `parse_string`: quote, optional escaped run taken
verbatim (escapes are recognised, not decoded), quote. -/
def parse_string (input : Str) : PRes Expr :=
  match charP '"' input with
  | .error e => .error e
  | .ok (i1, _) =>
    let (s, i2) : Str × Str :=
      match escRun [] i1 with
      | some (consumed, rem) => (consumed, rem)
      | none => ([], i1)
    match charP '"' i2 with
    | .error e => .error e
    | .ok (i3, _) => .ok (i3, Expr.String s)

/-- src/parser/expr.rs `parse_symbol`. -/
def parse_symbol (input : Str) : PRes Expr :=
  match takeWhile1K "TakeWhile1" isSymChar input with
  | .error e => .error e
  | .ok (rest, run) => .ok (rest, Expr.Symbol run)

/-- src/parser/expr.rs `parse_symbol_name`. -/
def parse_symbol_name (input : Str) : PRes Str :=
  takeWhile1K "TakeWhile1" isNameChar input

/-- src/parser/expr.rs `parse_atom`. -/
def parse_atom (input : Str) : PRes Expr :=
  alt2 parse_bool (alt2 parse_number (alt2 parse_string parse_symbol)) (ms0 input)

/-- src/parser/expr.rs `parse_param`. -/
def parse_param (input : Str) : PRes (Str × Ty) :=
  match parse_symbol_name (ms0 input) with
  | .error e => .error e
  | .ok (s1, name) =>
    match charP ':' (ms0 s1) with
    | .error e => .error e
    | .ok (s2, _) =>
      match parse_type_ann (ms0 s2) with
      | .error e => .error e
      | .ok (s3, ty) => .ok (s3, (name, ty))

/-- Separator `multispace0` used by `parse_params`; always succeeds,
possibly consuming nothing (which trips `separated_list0`'s
no-progress check). -/
def msSepP (s : Str) : PRes Unit := .ok (ms0 s, ())

/-- src/parser/expr.rs `parse_params`:
`delimited('[', separated_list0(multispace0, parse_param), ']')`. -/
def parse_params (input : Str) : PRes (List (Str × Ty)) :=
  match charP '[' input with
  | .error e => .error e
  | .ok (s1, _) =>
    match sepList0 msSepP parse_param s1 with
    | .error e => .error e
    | .ok (s2, params) =>
      match charP ']' s2 with
      | .error e => .error e
      | .ok (s3, _) => .ok (s3, params)

/-- src/parser/expr.rs `parse_return_type`. -/
def parse_return_type (input : Str) : PRes Ty :=
  match tagP "->" input with
  | .error e => .error e
  | .ok (s1, _) => parse_type_ann (ms0 s1)

/-- src/parser/expr.rs `parse_if_expr` (called after the leading `if`
symbol has been consumed), parameterised by the expression parser. -/
def parse_if_expr (pe : Str → PRes Expr) (input : Str) : PRes Expr :=
  match pe (ms0 input) with
  | .error e => .error e
  | .ok (s1, condition) =>
    match pe (ms0 s1) with
    | .error e => .error e
    | .ok (s2, then_branch) =>
      match pe (ms0 s2) with
      | .error e => .error e
      | .ok (s3, else_branch) =>
        match charP ')' (ms0 s3) with
        | .error e => .error e
        | .ok (s4, _) => .ok (s4, Expr.If condition then_branch else_branch)

/-- src/parser/expr.rs `parse_let_expr`.  The Rust builds
`Expr::Let { name, type_ann, value }` without the `body` field that
`ast.rs` requires (the file does not compile as written); the embedding
uses `body := none`, the only completion consistent with the closing
paren demanded immediately after the value. -/
def parse_let_expr (pe : Str → PRes Expr) (input : Str) : PRes Expr :=
  match parse_symbol_name (ms0 input) with
  | .error e => .error e
  | .ok (s1, name) =>
    match optP (charP ':') (ms0 s1) with
    | .error e => .error e
    | .ok (s2, hasColon) =>
      let annStep : PRes (Option Ty) :=
        match hasColon with
        | some _ =>
          match optP parse_type_ann (ms0 s2) with
          | .ok (rem, some ty) => .ok (rem, some ty)
          | _ => .ok (ms0 s2, none)
        | none => optP parse_type_ann (ms0 s2)
      match annStep with
      | .error e => .error e
      | .ok (s3, type_ann) =>
        match pe (ms0 s3) with
        | .error e => .error e
        | .ok (s4, value) =>
          match charP ')' (ms0 s4) with
          | .error e => .error e
          | .ok (s5, _) => .ok (s5, Expr.Let name type_ann value none)

/-- src/parser/expr.rs `parse_defn_expr`. -/
def parse_defn_expr (pe : Str → PRes Expr) (input : Str) : PRes Expr :=
  match parse_symbol_name (ms0 input) with
  | .error e => .error e
  | .ok (s1, name) =>
    match parse_params (ms0 s1) with
    | .error e => .error e
    | .ok (s2, params) =>
      match parse_return_type (ms0 s2) with
      | .error e => .error e
      | .ok (s3, return_type) =>
        match pe (ms0 s3) with
        | .error e => .error e
        | .ok (s4, body) =>
          match charP ')' (ms0 s4) with
          | .error e => .error e
          | .ok (s5, _) => .ok (s5, Expr.Defn name params return_type body)

/-- src/parser/expr.rs `parse_lambda_expr`. -/
def parse_lambda_expr (pe : Str → PRes Expr) (input : Str) : PRes Expr :=
  match parse_params (ms0 input) with
  | .error e => .error e
  | .ok (s1, params) =>
    match optP parse_return_type (ms0 s1) with
    | .error e => .error e
    | .ok (s2, return_type) =>
      match pe (ms0 s2) with
      | .error e => .error e
      | .ok (s3, body) =>
        match charP ')' (ms0 s3) with
        | .error e => .error e
        | .ok (s4, _) => .ok (s4, Expr.Lambda params return_type body)

/-- Tail of the generic-list branch of `parse_list`:
`many0(preceded(multispace0, parse_expr))` then the closing paren. -/
def parse_list_tail (pe : Str → PRes Expr) (first : Expr) (input : Str) : PRes Expr :=
  match many0 (fun t => pe (ms0 t)) (ms0 input) with
  | .error e => .error e
  | .ok (s1, rest) =>
    match charP ')' (ms0 s1) with
    | .error e => .error e
    | .ok (s2, _) => .ok (s2, Expr.List (first :: rest))

/-- src/parser/expr.rs `parse_list`: open paren, optional first element,
dispatch on its symbolic value. -/
def parse_list (pe : Str → PRes Expr) (input : Str) : PRes Expr :=
  match charP '(' (ms0 input) with
  | .error e => .error e
  | .ok (s1, _) =>
    match optP pe (ms0 s1) with
    | .error e => .error e
    | .ok (s2, none) =>
      match charP ')' (ms0 s2) with
      | .error e => .error e
      | .ok (s3, _) => .ok (s3, Expr.List [])
    | .ok (s2, some first) =>
      match first with
      | .Symbol sym =>
        if sym = s2l "if" then parse_if_expr pe s2
        else if sym = s2l "let" then parse_let_expr pe s2
        else if sym = s2l "defn" then parse_defn_expr pe s2
        else if sym = s2l "fn" ∨ sym = s2l "lambda" then parse_lambda_expr pe s2
        else parse_list_tail pe first s2
      | _ => parse_list_tail pe first s2

/-- Fueled core of src/parser/expr.rs `parse_expr`; each recursion level
first consumes the opening paren of a list, so `length + 2` fuel is
always enough. -/
def parseExprF : Nat → Str → PRes Expr
  | 0, _ => .error (.fail (.NomError (s2l "Parse error: fuel")))
  | n + 1, s => alt2 (parse_list (parseExprF n)) parse_atom (ms0 s)

/-- src/parser/expr.rs `parse_expr`. -/
def parse_expr (s : Str) : PRes Expr := parseExprF (s.length + 2) s

/-- Rust `str::trim` (Unicode whitespace; the inputs here are ASCII). -/
def rustTrim (s : Str) : Str :=
  ((s.dropWhile Char.isWhitespace).reverse.dropWhile Char.isWhitespace).reverse

/-- src/parser/mod.rs `parse`: whole-input parse; a non-empty (modulo
whitespace) remainder is an `UnexpectedInput` error, and nom errors are
unwrapped by `ParseError::from`. -/
def parse (input : Str) : Except PErr Expr :=
  match parse_expr input with
  | .ok (remaining, e) =>
    if rustTrim remaining = [] then .ok e
    else .error (.UnexpectedInput remaining)
  | .error (.err e) => .error e
  | .error (.fail e) => .error e

/-! ## Values and environments (src/env.rs, src/types.rs) -/

/-- Identity of the host closure stored in each `Value::BuiltinFunction`
entry of `Environment::new` (src/env.rs lines 68-311); dispatch happens
through `applyBuiltinOp`. -/
inductive BuiltinOp where
  | add | sub | mul | div
  | addF | subF | mulF | divF
  | eqI | ltI | gtI | leI | geI
  | andB | orB | notB
  | print | println | typeOf
deriving DecidableEq, Repr

mutual
/-- src/env.rs `Value`. -/
inductive Value where
  | Integer32 (n : Int)
  | Integer64 (n : Int)
  | Float (q : Rat)
  | Bool (b : Bool)
  | String (s : Str)
  | Function (params : List Str) (body : Expr) (env : Environment)
  | BuiltinFunction (name : Str) (arity : Nat) (op : BuiltinOp)

/-- src/env.rs `Environment`: a local map plus an optional parent. -/
inductive Environment where
  | mk (values : List (Str × Value)) (parent : Option Environment)
end

/-- First-match association-list lookup (the observable behaviour of
`HashMap::get` given the cons-based insert below). -/
def lookupA {α : Type} : List (Str × α) → Str → Option α
  | [], _ => none
  | (k, v) :: rest, name => if k = name then some v else lookupA rest name

/-- src/env.rs `Environment::get`: local map first, then the parent chain. -/
def Environment.get : Environment → Str → Option Value
  | .mk values parent, name =>
    match lookupA values name with
    | some v => some v
    | none =>
      match parent with
      | some p => p.get name
      | none => none

/-- src/env.rs `Environment::set` (`HashMap::insert`: the new binding
shadows any previous one of the same name). -/
def Environment.set (env : Environment) (name : Str) (v : Value) : Environment :=
  match env with
  | .mk values parent => .mk ((name, v) :: values) parent

/-- src/env.rs `Environment::extend`: a fresh child scope whose parent is
(a clone of) the current environment. -/
def Environment.extend (env : Environment) : Environment := .mk [] (some env)

abbrev RustString := String

/-- src/env.rs `Value::type_name` (the alias keeps Lean from resolving the
return type to the `Value.String` constructor). -/
def Value.type_name : Value → RustString
  | .Integer32 _ => "i32"
  | .Integer64 _ => "i64"
  | .Float _ => "f64"
  | .Bool _ => "bool"
  | .String _ => "String"
  | .Function _ _ _ => "function"
  | .BuiltinFunction _ _ _ => "builtin"

/-- Two's-complement wrap to `i32` (release-mode Rust arithmetic). -/
def wrap32 (n : Int) : Int := (n + 2 ^ 31) % 2 ^ 32 - 2 ^ 31

/-- Two's-complement wrap to `i64`. -/
def wrap64 (n : Int) : Int := (n + 2 ^ 63) % 2 ^ 64 - 2 ^ 63

/-- Rust `i32`/`i64` `Display` (decimal). -/
def intDisplay (n : Int) : String :=
  if n < 0 then "-" ++ Nat.repr n.natAbs else Nat.repr n.natAbs

/-- Stand-in for Rust's `f64` `Display`; no claim exercises float
formatting, so an exact rational rendering is used. -/
def floatDisplay (q : Rat) : String :=
  if q.den = 1 then intDisplay q.num
  else intDisplay q.num ++ "/" ++ Nat.repr q.den

/-- src/env.rs `impl fmt::Display for Value` (strings render unquoted). -/
def formatValue : Value → String
  | .Integer32 n => intDisplay n
  | .Integer64 n => intDisplay n
  | .Float q => floatDisplay q
  | .Bool b => if b then "true" else "false"
  | .String s => String.mk s
  | .Function params _ _ => "#<function:" ++ Nat.repr params.length ++ ">"
  | .BuiltinFunction name arity _ =>
    "#<builtin:" ++ String.mk name ++ ":" ++ Nat.repr arity ++ ">"

/-- The host closures of src/env.rs `Environment::new`, dispatched by
identity; the result pairs the `Result<Value, String>` with the text the
closure printed (empty for every operator except `print`/`println`). -/
def applyBuiltinOp : BuiltinOp → List Value → Except String Value × List String
  | .add, [.Integer32 a, .Integer32 b] => (.ok (.Integer32 (wrap32 (a + b))), [])
  | .add, [.Integer64 a, .Integer64 b] => (.ok (.Integer64 (wrap64 (a + b))), [])
  | .add, _ => (.error "+ requires two integers of the same type", [])
  | .sub, [.Integer32 a, .Integer32 b] => (.ok (.Integer32 (wrap32 (a - b))), [])
  | .sub, [.Integer64 a, .Integer64 b] => (.ok (.Integer64 (wrap64 (a - b))), [])
  | .sub, _ => (.error "- requires two integers of the same type", [])
  | .mul, [.Integer32 a, .Integer32 b] => (.ok (.Integer32 (wrap32 (a * b))), [])
  | .mul, [.Integer64 a, .Integer64 b] => (.ok (.Integer64 (wrap64 (a * b))), [])
  | .mul, _ => (.error "* requires two integers of the same type", [])
  | .div, [.Integer32 a, .Integer32 b] =>
    if b = 0 then (.error "Division by zero", [])
    else (.ok (.Integer32 (wrap32 (Int.tdiv a b))), [])
  | .div, [.Integer64 a, .Integer64 b] =>
    if b = 0 then (.error "Division by zero", [])
    else (.ok (.Integer64 (wrap64 (Int.tdiv a b))), [])
  | .div, _ => (.error "/ requires two integers of the same type", [])
  | .addF, [.Float a, .Float b] => (.ok (.Float (a + b)), [])
  | .addF, _ => (.error "+. requires two floats", [])
  | .subF, [.Float a, .Float b] => (.ok (.Float (a - b)), [])
  | .subF, _ => (.error "-. requires two floats", [])
  | .mulF, [.Float a, .Float b] => (.ok (.Float (a * b)), [])
  | .mulF, _ => (.error "*. requires two floats", [])
  | .divF, [.Float a, .Float b] =>
    if b = 0 then (.error "Division by zero", [])
    else (.ok (.Float (a / b)), [])
  | .divF, _ => (.error "/. requires two floats", [])
  | .eqI, [.Integer32 a, .Integer32 b] => (.ok (.Bool (decide (a = b))), [])
  | .eqI, [.Integer64 a, .Integer64 b] => (.ok (.Bool (decide (a = b))), [])
  | .eqI, _ => (.error "= requires two integers of the same type", [])
  | .ltI, [.Integer32 a, .Integer32 b] => (.ok (.Bool (decide (a < b))), [])
  | .ltI, [.Integer64 a, .Integer64 b] => (.ok (.Bool (decide (a < b))), [])
  | .ltI, _ => (.error "< requires two integers of the same type", [])
  | .gtI, [.Integer32 a, .Integer32 b] => (.ok (.Bool (decide (b < a))), [])
  | .gtI, [.Integer64 a, .Integer64 b] => (.ok (.Bool (decide (b < a))), [])
  | .gtI, _ => (.error "> requires two integers of the same type", [])
  | .leI, [.Integer32 a, .Integer32 b] => (.ok (.Bool (decide (a ≤ b))), [])
  | .leI, [.Integer64 a, .Integer64 b] => (.ok (.Bool (decide (a ≤ b))), [])
  | .leI, _ => (.error "<= requires two integers of the same type", [])
  | .geI, [.Integer32 a, .Integer32 b] => (.ok (.Bool (decide (b ≤ a))), [])
  | .geI, [.Integer64 a, .Integer64 b] => (.ok (.Bool (decide (b ≤ a))), [])
  | .geI, _ => (.error ">= requires two integers of the same type", [])
  | .andB, [.Bool a, .Bool b] => (.ok (.Bool (a && b)), [])
  | .andB, _ => (.error "and requires two booleans", [])
  | .orB, [.Bool a, .Bool b] => (.ok (.Bool (a || b)), [])
  | .orB, _ => (.error "or requires two booleans", [])
  | .notB, [.Bool b] => (.ok (.Bool (!b)), [])
  | .notB, _ => (.error "not requires a boolean", [])
  | .print, [v] =>
    match v with
    | .String s => (.ok (.String s), [String.mk s])
    | v => (.ok v, [formatValue v])
  | .print, _ => (.error "print: unreachable arity", [])
  | .println, [v] =>
    match v with
    | .String s => (.ok (.String s), [String.mk s ++ "\n"])
    | v => (.ok v, [formatValue v ++ "\n"])
  | .println, _ => (.error "println: unreachable arity", [])
  | .typeOf, [v] => (.ok (.String (s2l (Value.type_name v))), [])
  | .typeOf, _ => (.error "type-of: unreachable arity", [])

/-- src/env.rs `Environment::new`: the root value environment with the
fixed built-in table, in source insertion order. -/
def Environment.new : Environment :=
  .mk
    [ (s2l "+", .BuiltinFunction (s2l "+") 2 .add)
    , (s2l "-", .BuiltinFunction (s2l "-") 2 .sub)
    , (s2l "*", .BuiltinFunction (s2l "*") 2 .mul)
    , (s2l "/", .BuiltinFunction (s2l "/") 2 .div)
    , (s2l "+.", .BuiltinFunction (s2l "+.") 2 .addF)
    , (s2l "-.", .BuiltinFunction (s2l "-.") 2 .subF)
    , (s2l "*.", .BuiltinFunction (s2l "*.") 2 .mulF)
    , (s2l "/.", .BuiltinFunction (s2l "/.") 2 .divF)
    , (s2l "=", .BuiltinFunction (s2l "=") 2 .eqI)
    , (s2l "<", .BuiltinFunction (s2l "<") 2 .ltI)
    , (s2l ">", .BuiltinFunction (s2l ">") 2 .gtI)
    , (s2l "<=", .BuiltinFunction (s2l "<=") 2 .leI)
    , (s2l ">=", .BuiltinFunction (s2l ">=") 2 .geI)
    , (s2l "and", .BuiltinFunction (s2l "and") 2 .andB)
    , (s2l "or", .BuiltinFunction (s2l "or") 2 .orB)
    , (s2l "not", .BuiltinFunction (s2l "not") 1 .notB)
    , (s2l "print", .BuiltinFunction (s2l "print") 1 .print)
    , (s2l "println", .BuiltinFunction (s2l "println") 1 .println)
    , (s2l "type-of", .BuiltinFunction (s2l "type-of") 1 .typeOf)
    ]
    none

/-- src/types.rs `TypeEnv`: a flat map (no parent link; `extend` clones). -/
abbrev TypeEnvT := List (Str × Ty)

/-- src/types.rs `TypeEnv::new`: the root type environment.  Note that it
contains `print` and `println` but no entry for `type-of`. -/
def TypeEnv.new : TypeEnvT :=
  [ (s2l "+", .Function [.Inferred, .Inferred] .Inferred)
  , (s2l "-", .Function [.Inferred, .Inferred] .Inferred)
  , (s2l "*", .Function [.Inferred, .Inferred] .Inferred)
  , (s2l "/", .Function [.Inferred, .Inferred] .Inferred)
  , (s2l "+.", .Function [.F64, .F64] .F64)
  , (s2l "-.", .Function [.F64, .F64] .F64)
  , (s2l "*.", .Function [.F64, .F64] .F64)
  , (s2l "/.", .Function [.F64, .F64] .F64)
  , (s2l "=", .Function [.Inferred, .Inferred] .Bool)
  , (s2l "<", .Function [.Inferred, .Inferred] .Bool)
  , (s2l ">", .Function [.Inferred, .Inferred] .Bool)
  , (s2l "<=", .Function [.Inferred, .Inferred] .Bool)
  , (s2l ">=", .Function [.Inferred, .Inferred] .Bool)
  , (s2l "and", .Function [.Bool, .Bool] .Bool)
  , (s2l "or", .Function [.Bool, .Bool] .Bool)
  , (s2l "not", .Function [.Bool] .Bool)
  , (s2l "print", .Function [.Inferred] .Inferred)
  , (s2l "println", .Function [.Inferred] .Inferred)
  ]

/-- src/types.rs `TypeEnv::insert`. -/
def tyInsert (env : TypeEnvT) (name : Str) (ty : Ty) : TypeEnvT := (name, ty) :: env

/-- src/types.rs `TypeEnv::extend` (clones the whole flat map; with
persistent lists the clone is the value itself). -/
def tyExtend (env : TypeEnvT) : TypeEnvT := env

mutual
/-- `#[derive(PartialEq)]` structural equality on src/ast.rs `Type`. -/
def tyEq : Ty → Ty → Bool
  | .I32, .I32 => true
  | .I64, .I64 => true
  | .F64, .F64 => true
  | .Bool, .Bool => true
  | .String, .String => true
  | .Function ps1 r1, .Function ps2 r2 => tyListEq ps1 ps2 && tyEq r1 r2
  | .Inferred, .Inferred => true
  | _, _ => false

def tyListEq : List Ty → List Ty → Bool
  | [], [] => true
  | t1 :: r1, t2 :: r2 => tyEq t1 t2 && tyListEq r1 r2
  | _, _ => false
end

mutual
/-- src/ast.rs `impl fmt::Display for Type`. -/
def tyDisplay : Ty → String
  | .I32 => "i32"
  | .I64 => "i64"
  | .F64 => "f64"
  | .Bool => "bool"
  | .String => "String"
  | .Function params return_type =>
    "fn(" ++ tyListDisplay params ++ ") -> " ++ tyDisplay return_type
  | .Inferred => "_"

def tyListDisplay : List Ty → String
  | [] => ""
  | [t] => tyDisplay t
  | t :: rest => tyDisplay t ++ ", " ++ tyListDisplay rest
end

/-! ## Type checker (src/types.rs) -/

/-- src/types.rs `parse_type` (note: no `i64` arm). -/
def parse_type (s : Str) : Except String Ty :=
  if s = s2l "i32" then .ok .I32
  else if s = s2l "f64" then .ok .F64
  else if s = s2l "bool" then .ok .Bool
  else if s = s2l "String" then .ok .String
  else if s = s2l "_" then .ok .Inferred
  else .error ("Unknown type: " ++ String.mk s)

/-- The argument loop of the `Expr::Call` arm of `type_check`
(src/types.rs lines 225-238): check each argument against its parameter
type (an `Inferred` parameter accepts anything) and, when the declared
return type is `Inferred`, replace the result type by each argument's
type in turn. -/
def tcArgs (tc : Expr → TypeEnvT → Except String Ty × TypeEnvT)
    (retIsInf : Bool) :
    List (Expr × Ty) → Ty → TypeEnvT → Except String Ty × TypeEnvT
  | [], actual, env => (.ok actual, env)
  | (arg, param_type) :: rest, actual, env =>
    match tc arg env with
    | (.error e, env1) => (.error e, env1)
    | (.ok arg_type, env1) =>
      if !tyEq param_type .Inferred && !tyEq arg_type param_type then
        (.error ("Type mismatch in argument: expected " ++ tyDisplay param_type
            ++ ", got " ++ tyDisplay arg_type), env1)
      else
        tcArgs tc retIsInf rest (if retIsInf then arg_type else actual) env1

/-- One recursion layer of src/types.rs `type_check`; the argument `tc`
is the checker one fuel level down.  The `Expr::Let` arm of the Rust
match omits the `body` field required by `ast.rs` (the file does not
compile as written); the embedding matches any body and ignores it,
which is the only completion consistent with the rest of the arm. -/
def typeCheckCore (tc : Expr → TypeEnvT → Except String Ty × TypeEnvT) :
    Expr → TypeEnvT → Except String Ty × TypeEnvT
  | .Integer32 _, env => (.ok .I32, env)
  | .Integer64 _, env => (.ok .I64, env)
  | .Float _, env => (.ok .F64, env)
  | .Bool _, env => (.ok .Bool, env)
  | .String _, env => (.ok .String, env)
  | .Symbol name, env =>
    match lookupA env name with
    | some ty => (.ok ty, env)
    | none => (.error ("Undefined variable: " ++ String.mk name), env)
  | .If condition then_branch else_branch, env =>
    match tc condition env with
    | (.error e, env1) => (.error e, env1)
    | (.ok cond_type, env1) =>
      if !tyEq cond_type .Bool then
        (.error ("If condition must be bool, got " ++ tyDisplay cond_type), env1)
      else
        match tc then_branch env1 with
        | (.error e, env2) => (.error e, env2)
        | (.ok then_type, env2) =>
          match tc else_branch env2 with
          | (.error e, env3) => (.error e, env3)
          | (.ok else_type, env3) =>
            if !tyEq then_type else_type then
              (.error ("If branches must have same type: " ++ tyDisplay then_type
                  ++ " vs " ++ tyDisplay else_type), env3)
            else (.ok then_type, env3)
  | .Let name type_ann value _, env =>
    match tc value env with
    | (.error e, env1) => (.error e, env1)
    | (.ok value_type, env1) =>
      match type_ann with
      | some ann =>
        if !tyEq ann value_type && !tyEq ann .Inferred then
          (.error ("Type mismatch: expected " ++ tyDisplay ann ++ ", got "
              ++ tyDisplay value_type), env1)
        else (.ok ann, tyInsert env1 name ann)
      | none => (.ok value_type, tyInsert env1 name value_type)
  | .Defn name params return_type body, env =>
    let new_env := params.foldl (fun e p => tyInsert e p.1 p.2) (tyExtend env)
    match tc body new_env with
    | (.error e, _) => (.error e, env)
    | (.ok body_type, _) =>
      if !tyEq body_type return_type && !tyEq return_type .Inferred then
        (.error ("Return type mismatch: expected " ++ tyDisplay return_type
            ++ ", got " ++ tyDisplay body_type), env)
      else
        let func_type := Ty.Function (params.map (·.2)) return_type
        (.ok func_type, tyInsert env name func_type)
  | .Lambda params return_type body, env =>
    let new_env := params.foldl (fun e p => tyInsert e p.1 p.2) (tyExtend env)
    match tc body new_env with
    | (.error e, _) => (.error e, env)
    | (.ok body_type, _) =>
      match return_type with
      | some rt =>
        if !tyEq body_type rt && !tyEq rt .Inferred then
          (.error ("Lambda return type mismatch: expected " ++ tyDisplay rt
              ++ ", got " ++ tyDisplay body_type), env)
        else (.ok (Ty.Function (params.map (·.2)) body_type), env)
      | none => (.ok (Ty.Function (params.map (·.2)) body_type), env)
  | .Call func args, env =>
    match tc func env with
    | (.error e, env1) => (.error e, env1)
    | (.ok func_type, env1) =>
      match func_type with
      | .Function params return_type =>
        if args.length ≠ params.length then
          (.error ("Wrong number of arguments: expected " ++ Nat.repr params.length
              ++ ", got " ++ Nat.repr args.length), env1)
        else
          tcArgs tc (tyEq return_type .Inferred) (args.zip params) return_type env1
      | _ => (.error ("Cannot call non-function type: " ++ tyDisplay func_type), env1)
  | .List exprs, env =>
    match exprs with
    | [] => (.error "Empty list", env)
    | first :: rest =>
      match first with
      | .Symbol op =>
        if op = s2l "if" then
          match rest with
          | [c, t, e] => tc (.If c t e) env
          | _ => (.error "If requires 3 arguments", env)
        else if op = s2l "let" then
          if rest.length < 2 then (.error "Let requires at least 2 arguments", env)
          else
            match rest with
            | .Symbol name :: tail =>
              if (first :: rest).length = 4 then
                match tail with
                | .Symbol ty_str :: value :: _ =>
                  match parse_type ty_str with
                  | .ok ty => tc (.Let name (some ty) value none) env
                  | .error e => (.error e, env)
                | _ => (.error "Invalid type annotation", env)
              else
                match tail with
                | value :: _ => tc (.Let name none value none) env
                | [] => (.error "Let requires at least 2 arguments", env)
            | _ => (.error "Let binding must have a symbol name", env)
        else tc (.Call first rest) env
      | _ => tc (.Call first rest) env

/-- src/types.rs `type_check`, with explicit fuel for the non-structural
`Expr::List` re-dispatch. -/
def type_check : Nat → Expr → TypeEnvT → Except String Ty × TypeEnvT
  | 0, _, env => (.error "type_check: out of fuel", env)
  | fuel + 1, e, env => typeCheckCore (type_check fuel) e env

/-! ## Evaluator (src/eval.rs) -/

/-- Left-to-right evaluation of call arguments
(`args.iter().map(|a| eval(a, env)).collect::<Result<Vec<_>, _>>()`):
stop at the first error, threading the mutable environment and
accumulating printed output. -/
def evalList (ev : Expr → Environment → Except String Value × Environment × List String) :
    List Expr → Environment → Except String (List Value) × Environment × List String
  | [], env => (.ok [], env, [])
  | a :: rest, env =>
    match ev a env with
    | (.error e, env1, out1) => (.error e, env1, out1)
    | (.ok v, env1, out1) =>
      match evalList ev rest env1 with
      | (.error e, env2, out2) => (.error e, env2, out1 ++ out2)
      | (.ok vs, env2, out2) => (.ok (v :: vs), env2, out1 ++ out2)

/-- Parameter binding loop of the user-function call path
(`params.iter().zip(arg_vals.iter())`). -/
def bindParams : Environment → List Str → List Value → Environment
  | env, p :: ps, v :: vs => bindParams (env.set p v) ps vs
  | env, _, _ => env

/-- One recursion layer of src/eval.rs `eval`; `ev` is the evaluator one
fuel level down.  Results carry the (mutably threaded) environment and
the list of texts printed by `print`/`println`. -/
def evalCore (ev : Expr → Environment → Except String Value × Environment × List String) :
    Expr → Environment → Except String Value × Environment × List String
  | .Integer32 n, env => (.ok (.Integer32 n), env, [])
  | .Integer64 n, env => (.ok (.Integer64 n), env, [])
  | .Float q, env => (.ok (.Float q), env, [])
  | .Bool b, env => (.ok (.Bool b), env, [])
  | .String s, env => (.ok (.String s), env, [])
  | .Symbol name, env =>
    match env.get name with
    | some v => (.ok v, env, [])
    | none => (.error ("Undefined variable: " ++ String.mk name), env, [])
  | .If condition then_branch else_branch, env =>
    match ev condition env with
    | (.error e, env1, out1) => (.error e, env1, out1)
    | (.ok cond_val, env1, out1) =>
      match cond_val with
      | .Bool true =>
        match ev then_branch env1 with
        | (r, env2, out2) => (r, env2, out1 ++ out2)
      | .Bool false =>
        match ev else_branch env1 with
        | (r, env2, out2) => (r, env2, out1 ++ out2)
      | _ => (.error "If condition must be a boolean", env1, out1)
  | .Let name _ value body, env =>
    match ev value env with
    | (.error e, env1, out1) => (.error e, env1, out1)
    | (.ok val, env1, out1) =>
      match body with
      | some body_expr =>
        let new_env := env1.extend.set name val
        match ev body_expr new_env with
        | (r, _, out2) => (r, env1, out1 ++ out2)
      | none => (.ok val, env1.set name val, out1)
  | .Defn name params _ body, env =>
    let func := Value.Function (params.map (·.1)) body env
    (.ok func, env.set name func, [])
  | .Lambda params _ body, env =>
    (.ok (Value.Function (params.map (·.1)) body env), env, [])
  | .Call func args, env =>
    match ev func env with
    | (.error e, env1, out1) => (.error e, env1, out1)
    | (.ok func_val, env1, out1) =>
      match evalList ev args env1 with
      | (.error e, env2, out2) => (.error e, env2, out1 ++ out2)
      | (.ok arg_vals, env2, out2) =>
        match func_val with
        | .Function params body func_env =>
          if params.length ≠ arg_vals.length then
            (.error ("Wrong number of arguments: expected " ++ Nat.repr params.length
                ++ ", got " ++ Nat.repr arg_vals.length), env2, out1 ++ out2)
          else
            let new_env0 := func_env.extend
            let new_env1 :=
              match func with
              | .Symbol func_name =>
                match env2.get func_name with
                | some func_value => new_env0.set func_name func_value
                | none => new_env0
              | _ => new_env0
            match ev body (bindParams new_env1 params arg_vals) with
            | (r, _, out3) => (r, env2, out1 ++ out2 ++ out3)
        | .BuiltinFunction name arity op =>
          if arg_vals.length ≠ arity then
            (.error ("Wrong number of arguments for " ++ String.mk name
                ++ ": expected " ++ Nat.repr arity ++ ", got "
                ++ Nat.repr arg_vals.length), env2, out1 ++ out2)
          else
            match applyBuiltinOp op arg_vals with
            | (r, outB) => (r, env2, out1 ++ out2 ++ outB)
        | v => (.error ("Cannot call non-function value: " ++ formatValue v),
                env2, out1 ++ out2)
  | .List exprs, env =>
    match exprs with
    | [] => (.error "Empty list", env, [])
    | first :: rest =>
      match first with
      | .Symbol op =>
        if op = s2l "if" then
          if (first :: rest).length = 4 then
            match rest with
            | [c, t, e] => ev (.If c t e) env
            | _ => (.error "If requires 3 arguments", env, [])
          else (.error "If requires 3 arguments", env, [])
        else if op = s2l "let" then
          if rest.length < 2 then (.error "Let requires at least 2 arguments", env, [])
          else
            match rest with
            | .Symbol name :: tail =>
              if (first :: rest).length = 4 then
                match tail with
                | value :: body :: _ =>
                  ev (.Let name none value (some body)) env
                | _ => (.error "Invalid let expression", env, [])
              else if (first :: rest).length = 3 then
                match tail with
                | value :: _ => ev (.Let name none value none) env
                | [] => (.error "Invalid let expression", env, [])
              else (.error "Invalid let expression", env, [])
            | _ => (.error "Let binding must have a symbol name", env, [])
        else ev (.Call first rest) env
      | _ => ev (.Call first rest) env

/-- src/eval.rs `eval`, with explicit fuel for the non-structural
recursion through stored closure bodies. -/
def eval : Nat → Expr → Environment → Except String Value × Environment × List String
  | 0, _, env => (.error "eval: out of fuel", env, [])
  | fuel + 1, e, env => evalCore (eval fuel) e env

/-! ## Pipeline driver (src/main.rs) -/

/-- src/parser/error.rs `impl fmt::Display for ParseError`. -/
def perrDisplay : PErr → String
  | .UnexpectedInput s => "Unexpected input: " ++ String.mk s
  | .UnexpectedEof => "Unexpected end of input"
  | .InvalidNumber s => "Invalid number: " ++ String.mk s
  | .InvalidString s => "Invalid string: " ++ String.mk s
  | .InvalidType s => "Invalid type: " ++ String.mk s
  | .UnmatchedParen => "Unmatched parenthesis"
  | .NomError s => "Parse error: " ++ String.mk s

/-- src/main.rs `process_input`: parse, then type-check, then evaluate,
sharing the session's root environments; the result carries the possibly
mutated environments and the printed output. -/
def process_input (fuel : Nat) (input : String) (type_env : TypeEnvT)
    (env : Environment) :
    Except String (Value × Ty) × TypeEnvT × Environment × List String :=
  match parse (s2l input) with
  | .error e => (.error (perrDisplay e), type_env, env, [])
  | .ok ast =>
    match type_check fuel ast type_env with
    | (.error e, type_env1) => (.error e, type_env1, env, [])
    | (.ok ty, type_env1) =>
      match eval fuel ast env with
      | (.error e, env1, out) => (.error e, type_env1, env1, out)
      | (.ok value, env1, out) => (.ok (value, ty), type_env1, env1, out)

/-! ## Concrete inputs used by the claims -/

/-- The AST that the spec's grammar intends for
`(defn fact [n: i32] -> i32 (if (= n 0) 1 (* n (fact (- n 1)))))`. -/
def factDefn : Expr :=
  .Defn (s2l "fact") [(s2l "n", .I32)] .I32
    (.If (.List [.Symbol (s2l "="), .Symbol (s2l "n"), .Integer32 0])
      (.Integer32 1)
      (.List [.Symbol (s2l "*"), .Symbol (s2l "n"),
        .List [.Symbol (s2l "fact"),
          .List [.Symbol (s2l "-"), .Symbol (s2l "n"), .Integer32 1]]]))

/-- The AST of `(fact 5)` (this one the parser does produce). -/
def factCall : Expr := .List [.Symbol (s2l "fact"), .Integer32 5]

/-- The AST the spec intends for `(let x 1 (let x 2 x))`: a scoped
let-in whose body is another let-in. -/
def letInNested : Expr :=
  .Let (s2l "x") none (.Integer32 1)
    (some (.Let (s2l "x") none (.Integer32 2) (some (.Symbol (s2l "x")))))

/-- The AST of `(not true (print 5))`. -/
def notCall2 : Expr :=
  .List [.Symbol (s2l "not"), .Bool true,
    .List [.Symbol (s2l "print"), .Integer32 5]]

/-- The AST of `(type-of 42)`. -/
def typeOfCall : Expr := .List [.Symbol (s2l "type-of"), .Integer32 42]

/-! ## Claims -/

/-- C1: the claim says the full pipeline accepts the recursive `fact`
definition and then evaluates `(fact 5)` to 120.  On the code it fails
twice: `parse_params` rejects the non-empty parameter list (nom's
`separated_list0` errors when its separator `multispace0` matches
without consuming, which happens right before `]`), and even on the
intended AST the type checker rejects the body because `Defn` checks the
body before inserting `fact` into the environment.  The evaluator alone,
which splices the callee's name into the call frame, does produce 120 —
evidence that the spec describes the intended behaviour and the code
slipped. -/
theorem c1_recursion_pipeline_rejected :
    parse (s2l "(defn fact [n: i32] -> i32 (if (= n 0) 1 (* n (fact (- n 1)))))")
      = .error (.NomError (s2l "Parse error: TakeWhile1"))
    ∧ (type_check 100 factDefn TypeEnv.new).1 = .error "Undefined variable: fact"
    ∧ parse (s2l "(fact 5)") = .ok factCall
    ∧ (eval 200 factCall (eval 200 factDefn Environment.new).2.1).1
        = .ok (.Integer32 120) :=
  ⟨rfl, rfl, rfl, rfl⟩

/-- C2: the claim says `(let x 1 (let x 2 x))` parses as a scoped let-in
and evaluates to 2, and that a sequential top-level binding persists.
On the code both let-in inputs fail to parse: `parse_let_expr` demands
the closing paren immediately after the value (and its
`Expr::Let { name, type_ann, value }` literal omits the `body` field
that `ast.rs` requires, so the source does not even compile as written).
The evaluator does implement the intended semantics: the intended let-in
AST evaluates to 2 leaving the outer environment untouched, and a
body-less `(let x 1)` followed by `x` through the pipeline yields 1. -/
theorem c2_let_in_rejected :
    parse (s2l "(let x 1 (let x 2 x))")
      = .error (.NomError (s2l "Parse error: TakeWhile1"))
    ∧ parse (s2l "(let x 1 x)")
      = .error (.NomError (s2l "Parse error: TakeWhile1"))
    ∧ eval 10 letInNested Environment.new
        = (.ok (.Integer32 2), Environment.new, [])
    ∧ ((process_input 1000 "(let x 1)" TypeEnv.new Environment.new).1
        = .ok (.Integer32 1, .I32)
      ∧ (process_input 1000 "x"
          (process_input 1000 "(let x 1)" TypeEnv.new Environment.new).2.1
          (process_input 1000 "(let x 1)" TypeEnv.new Environment.new).2.2.1).1
        = .ok (.Integer32 1, .I32)) :=
  ⟨rfl, rfl, rfl, rfl, rfl⟩

/-- C3 counterexample: the claim says Eval reports a wrong-arity call
before any argument's side effect is observed.  Calling the unary `not`
with two arguments, the second of which is `(print 5)`, yields the arity
error *and* the printed output `"5"`: the argument's side effect is
observed before the arity check. -/
theorem c3_counterexample :
    parse (s2l "(not true (print 5))") = .ok notCall2
    ∧ eval 20 notCall2 Environment.new
        = (.error "Wrong number of arguments for not: expected 1, got 2",
           Environment.new, ["5"]) :=
  ⟨rfl, rfl⟩

/-- C3 amended: for every application (built-in or user function) whose
argument count differs from the callee's arity, Eval returns the arity
error and never applies the callee — but only after the callee and all
argument expressions have been evaluated left to right, so argument side
effects (the accumulated print output `out1 ++ out2`) are observed. -/
theorem c3_arity_after_arguments :
    (∀ (fuel : Nat) (f : Expr) (args : List Expr) (env : Environment)
        (name : Str) (arity : Nat) (op : BuiltinOp)
        (env1 : Environment) (out1 : List String) (vals : List Value)
        (env2 : Environment) (out2 : List String),
      eval fuel f env = (.ok (.BuiltinFunction name arity op), env1, out1) →
      evalList (eval fuel) args env1 = (.ok vals, env2, out2) →
      vals.length ≠ arity →
      eval (fuel + 1) (.Call f args) env
        = (.error ("Wrong number of arguments for " ++ String.mk name
            ++ ": expected " ++ Nat.repr arity ++ ", got "
            ++ Nat.repr vals.length), env2, out1 ++ out2))
    ∧ (∀ (fuel : Nat) (f : Expr) (args : List Expr) (env : Environment)
        (params : List Str) (body : Expr) (func_env : Environment)
        (env1 : Environment) (out1 : List String) (vals : List Value)
        (env2 : Environment) (out2 : List String),
      eval fuel f env = (.ok (.Function params body func_env), env1, out1) →
      evalList (eval fuel) args env1 = (.ok vals, env2, out2) →
      params.length ≠ vals.length →
      eval (fuel + 1) (.Call f args) env
        = (.error ("Wrong number of arguments: expected " ++ Nat.repr params.length
            ++ ", got " ++ Nat.repr vals.length), env2, out1 ++ out2)) := by
  constructor
  · intro fuel f args env name arity op env1 out1 vals env2 out2 h1 h2 h3
    simp only [eval, evalCore, h1, h2]
    rw [if_pos h3]
  · intro fuel f args env params body func_env env1 out1 vals env2 out2 h1 h2 h3
    simp only [eval, evalCore, h1, h2]
    rw [if_pos h3]

/-- Witness for C3 amended: the unary `not` applied to two arguments
fails with the arity error. -/
theorem c3_arity_after_arguments_witness :
    eval 6 (.Call (.Symbol (s2l "not")) [.Bool true, .Bool false]) Environment.new
      = (.error "Wrong number of arguments for not: expected 1, got 2",
         Environment.new, []) := by
  have h := c3_arity_after_arguments.1 5 (.Symbol (s2l "not"))
    [.Bool true, .Bool false] Environment.new (s2l "not") 1 .notB
    Environment.new [] [.Bool true, .Bool false] Environment.new []
    rfl rfl (by decide)
  simpa using h

/-- C4 counterexample: the claim says `(type-of 42)` passes the mandatory
type-check; through the pipeline it is rejected at type-checking because
`TypeEnv::new` installs no entry for `type-of`, so it is never
evaluated. -/
theorem c4_counterexample :
    process_input 1000 "(type-of 42)" TypeEnv.new Environment.new
      = (.error "Undefined variable: type-of", TypeEnv.new, Environment.new, []) :=
  rfl

/-- C4 amended: `type-of` is installed in the root *value* environment
and for every value returns a string naming its runtime type tag (so
Eval alone maps `(type-of 42)` to the string "i32"), but it is absent
from the root *type* environment, so `(type-of 42)` fails the mandatory
type-check with an undefined-variable error and the pipeline never
evaluates it. -/
theorem c4_type_of_only_in_value_env :
    Environment.get Environment.new (s2l "type-of")
      = some (.BuiltinFunction (s2l "type-of") 1 .typeOf)
    ∧ (∀ v : Value, applyBuiltinOp .typeOf [v]
        = (.ok (.String (s2l (Value.type_name v))), []))
    ∧ eval 20 typeOfCall Environment.new
        = (.ok (.String (s2l "i32")), Environment.new, [])
    ∧ lookupA TypeEnv.new (s2l "type-of") = none
    ∧ (type_check 100 typeOfCall TypeEnv.new).1
        = .error "Undefined variable: type-of" :=
  ⟨rfl, fun v => by cases v <;> rfl, rfl, rfl, rfl⟩

/-- C5: `parse` succeeds only when the whole input is consumed modulo
surrounding whitespace; whenever one expression parses but a
non-whitespace remainder is left, `parse` returns the trailing-input
error (the `UnexpectedInput` constructor carrying the remainder) rather
than a partial result. -/
theorem c5_whole_input_or_unexpected :
    (∀ (cs : Str) (e1 : Expr), parse cs = .ok e1 →
      ∃ rem : Str, parse_expr cs = .ok (rem, e1) ∧ rustTrim rem = [])
    ∧ (∀ (cs rem : Str) (e : Expr), parse_expr cs = .ok (rem, e) →
      rustTrim rem ≠ [] →
      parse cs = .error (.UnexpectedInput rem)) := by
  constructor
  · intro cs e1 h
    unfold parse at h
    cases hpe : parse_expr cs with
    | ok p =>
      obtain ⟨rem, e⟩ := p
      rw [hpe] at h
      dsimp only at h
      by_cases ht : rustTrim rem = []
      · rw [if_pos ht] at h
        obtain rfl : e = e1 := by cases h; rfl
        exact ⟨rem, rfl, ht⟩
      · rw [if_neg ht] at h
        cases h
    | error err =>
      rw [hpe] at h
      cases err with
      | err e2 => cases h
      | fail e2 => cases h
  · intro cs rem e hpe hrem
    unfold parse
    rw [hpe]
    dsimp only
    rw [if_neg hrem]

/-- Witness for C5: on `1 2` one expression parses with remainder ` 2`
and `parse` reports it as unexpected trailing input. -/
theorem c5_whole_input_or_unexpected_witness :
    parse_expr (s2l "1 2") = .ok (s2l " 2", .Integer32 1)
    ∧ rustTrim (s2l " 2") ≠ []
    ∧ parse (s2l "1 2") = .error (.UnexpectedInput (s2l " 2")) :=
  ⟨rfl, by decide,
   c5_whole_input_or_unexpected.2 (s2l "1 2") (s2l " 2") (.Integer32 1) rfl (by decide)⟩

/-- C6: `(if 1 2 3)` parses to a conditional whose condition types to
`i32`; type-checking rejects it ("If condition must be bool, got i32"),
and since the pipeline type-checks before evaluating, the expression is
never evaluated: the value environment and the type environment are
returned unchanged and no output is produced. -/
theorem c6_if_rejected_before_eval :
    parse (s2l "(if 1 2 3)")
      = .ok (.If (.Integer32 1) (.Integer32 2) (.Integer32 3))
    ∧ (type_check 100 (.If (.Integer32 1) (.Integer32 2) (.Integer32 3))
        TypeEnv.new).1 = .error "If condition must be bool, got i32"
    ∧ process_input 1000 "(if 1 2 3)" TypeEnv.new Environment.new
        = (.error "If condition must be bool, got i32",
           TypeEnv.new, Environment.new, []) :=
  ⟨rfl, rfl, rfl⟩

/-- C7: `(/ 5 0)` passes the (under-constrained) type check and fails at
evaluation with the division-by-zero error value; the session
environments come back unchanged and usable.  More generally, the `/`
built-in rejects any integer division with a zero second operand, at
both widths. -/
theorem c7_division_by_zero :
    process_input 1000 "(/ 5 0)" TypeEnv.new Environment.new
      = (.error "Division by zero", TypeEnv.new, Environment.new, [])
    ∧ (∀ a : Int, applyBuiltinOp .div [.Integer32 a, .Integer32 0]
        = (.error "Division by zero", []))
    ∧ (∀ a : Int, applyBuiltinOp .div [.Integer64 a, .Integer64 0]
        = (.error "Division by zero", [])) :=
  ⟨rfl, fun _ => rfl, fun _ => rfl⟩

/-- C8: integer literal parsing is width-promoted: `42` parses as the
32-bit variant, `2147483648` (beyond `i32`) as the 64-bit variant, any
all-digit literal whose value exceeds the `i64` range fails with
`InvalidNumber`, and the `+` built-in rejects a 32-bit/64-bit operand
mix (shown both on the host closure for arbitrary operands and through
the whole pipeline on `(+ 1 2147483648)`). -/
theorem c8_integer_promotion :
    parse (s2l "42") = .ok (.Integer32 42)
    ∧ parse (s2l "2147483648") = .ok (.Integer64 2147483648)
    ∧ parse (s2l "9223372036854775808")
        = .error (.InvalidNumber (s2l "9223372036854775808 is out of i64 range"))
    ∧ (∀ ds : Str, ds ≠ [] → (∀ c ∈ ds, c.isDigit) →
        2 ^ 63 ≤ natOfDigits ds →
        parse_integer ds
          = .error (.fail (.InvalidNumber (ds ++ s2l " is out of i64 range"))))
    ∧ (∀ a b : Int,
        applyBuiltinOp .add [.Integer32 a, .Integer64 b]
          = (.error "+ requires two integers of the same type", [])
        ∧ applyBuiltinOp .add [.Integer64 a, .Integer32 b]
          = (.error "+ requires two integers of the same type", []))
    ∧ process_input 1000 "(+ 1 2147483648)" TypeEnv.new Environment.new
        = (.error "+ requires two integers of the same type",
           TypeEnv.new, Environment.new, []) := by
  refine ⟨rfl, rfl, rfl, ?_, fun a b => ⟨rfl, rfl⟩, rfl⟩
  intro ds hne hdig hbig
  obtain ⟨d, rest, rfl⟩ := List.exists_cons_of_ne_nil hne
  have hd : d.isDigit := hdig d (List.mem_cons_self d rest)
  have hdm : ¬(d = '-') := by
    intro h
    rw [h] at hd
    exact absurd hd (by decide)
  have htw : (d :: rest).takeWhile Char.isDigit = d :: rest :=
    List.takeWhile_eq_self_iff.mpr hdig
  have hbig' : (2 : Int) ^ 63 ≤ (natOfDigits (d :: rest) : Int) := by
    exact_mod_cast hbig
  simp only [parse_integer, optP, charP, digit1, takeWhile1K, nomKind,
    if_neg hdm, htw, List.isEmpty_cons, List.drop_length]
  split
  next e heq => exact absurd heq (by simp)
  next i2 digits heq =>
    obtain ⟨rfl, rfl⟩ : i2 = [] ∧ digits = d :: rest := by
      cases heq
      exact ⟨rfl, rfl⟩
    rw [if_neg (by omega), if_neg (by omega)]

/-- Witness for C8: the out-of-range hypothesis of the promotion theorem
holds at the literal 9223372036854775808 (2^63). -/
theorem c8_integer_promotion_witness :
    parse_integer (s2l "9223372036854775808")
      = .error (.fail (.InvalidNumber
          (s2l "9223372036854775808 is out of i64 range"))) := by
  have h := c8_integer_promotion.2.2.2.1 (s2l "9223372036854775808")
    (by decide) (by decide) (by decide)
  exact h

/-- C9: `()` parses to the empty generic list; on the empty list both the
type checker and the evaluator (at any fuel, in any environment) return
the error "Empty list" without touching the environment, and through the
pipeline the input is rejected at type-checking, so it is never
evaluated and nothing is printed. -/
theorem c9_empty_list :
    parse (s2l "()") = .ok (.List [])
    ∧ (∀ (fuel : Nat) (env : TypeEnvT),
        type_check (fuel + 1) (.List []) env = (.error "Empty list", env))
    ∧ (∀ (fuel : Nat) (env : Environment),
        eval (fuel + 1) (.List []) env = (.error "Empty list", env, []))
    ∧ process_input 1000 "()" TypeEnv.new Environment.new
        = (.error "Empty list", TypeEnv.new, Environment.new, []) :=
  ⟨rfl, fun _ _ => rfl, fun _ _ => rfl, rfl⟩

/-- The consumed prefix returned by the `escaped` run, together with the
remainder, reassembles the input: escape sequences are kept verbatim. -/
theorem escRun_append (acc cs : Str) :
    ∀ out rem, escRun acc cs = some (out, rem) → out ++ rem = acc.reverse ++ cs := by
  induction acc, cs using escRun.induct with
  | case1 acc =>
    intro out rem h
    unfold escRun at h
    cases h
    simp
  | case2 acc =>
    intro out rem h
    unfold escRun at h
    simp at h
  | case3 acc d rest2 hd ih =>
    intro out rem h
    unfold escRun at h
    rw [if_pos rfl] at h
    dsimp only at h
    rw [if_pos hd] at h
    have := ih out rem h
    simpa using this
  | case4 acc d rest2 hd =>
    intro out rem h
    unfold escRun at h
    rw [if_pos rfl] at h
    dsimp only at h
    rw [Bool.not_eq_true] at hd
    rw [hd] at h
    simp at h
  | case5 acc rest hacc hq =>
    intro out rem h
    unfold escRun at h
    rw [if_neg hq, if_pos rfl, if_pos hacc] at h
    simp at h
  | case6 acc rest hacc hq =>
    intro out rem h
    unfold escRun at h
    rw [if_neg hq, if_pos rfl, if_neg hacc] at h
    cases h
    rfl
  | case7 acc c rest hc1 hc2 ih =>
    intro out rem h
    unfold escRun at h
    rw [if_neg hc1, if_neg hc2] at h
    have := ih out rem h
    simpa using this

/-- C10: string literal parsing recognises but does not decode escape
sequences — whatever `parse_string` returns is the verbatim slice of the
source between the two quotes (so escapes stay as backslash + character),
and in particular the five-character source `"a\n"` parses to the
three-character string `a`, backslash, `n`. -/
theorem c10_escapes_verbatim :
    (∀ (cs rest s : Str), parse_string cs = .ok (rest, .String s) →
      cs = '"' :: (s ++ '"' :: rest))
    ∧ parse (s2l "\"a\\n\"") = .ok (.String (s2l "a\\n")) := by
  refine ⟨?_, rfl⟩
  intro cs rest s h
  unfold parse_string at h
  cases cs with
  | nil => simp [charP] at h
  | cons c cs2 =>
    by_cases hc : c = '"'
    · subst hc
      rw [show charP '"' ('"' :: cs2) = .ok (cs2, '"') from rfl] at h
      dsimp only at h
      cases hesc : escRun [] cs2 with
      | some p =>
        obtain ⟨consumed, rem⟩ := p
        rw [hesc] at h
        dsimp only at h
        cases rem with
        | nil => simp [charP] at h
        | cons r rs =>
          by_cases hr : r = '"'
          · subst hr
            rw [show charP '"' ('"' :: rs) = .ok (rs, '"') from rfl] at h
            dsimp only at h
            cases h
            have hap := escRun_append [] cs2 s ('"' :: rest) hesc
            simp only [List.reverse_nil, List.nil_append] at hap
            rw [← hap]
          · simp [charP, hr] at h
      | none =>
        rw [hesc] at h
        dsimp only at h
        cases cs2 with
        | nil => simp [charP] at h
        | cons r rs =>
          by_cases hr : r = '"'
          · subst hr
            rw [show charP '"' ('"' :: rs) = .ok (rs, '"') from rfl] at h
            dsimp only at h
            cases h
            rfl
          · simp [charP, hr] at h
    · simp [charP, hc] at h

/-- Witness for C10: the verbatim-slice property instantiated at the
concrete literal `"a\n"`. -/
theorem c10_escapes_verbatim_witness :
    parse_string (s2l "\"a\\n\"") = .ok ([], .String (s2l "a\\n"))
    ∧ s2l "\"a\\n\"" = '"' :: (s2l "a\\n" ++ '"' :: []) :=
  ⟨rfl, c10_escapes_verbatim.1 (s2l "\"a\\n\"") [] (s2l "a\\n") rfl⟩
